import Mathlib

/-!
Verification of the OmniStitch MVP browser extension (background orchestrator,
options page, and content-script injector) against its natural-language
specification.  The JavaScript sources are shallowly embedded as executable
Lean definitions: storage reads become explicit inputs, storage writes and
opened tabs become explicit outputs, timestamps are natural-number
milliseconds, and the page DOM is a list of elements in document order.
-/

namespace OmniStitch

/-! ## Background destination-config table (background.js lines 1-22) -/

/-- One entry of `TARGET_SITE_CONFIGS` in background.js: destination id,
display name, base URL, and the optional query-parameter name used to embed
the payload in the destination URL (`null` becomes `none`). -/
structure TargetSiteConfig where
  id : String
  name : String
  baseUrl : String
  promptParam : Option String
deriving DecidableEq, Repr

def DEFAULT_TARGET_SITE : String := "chatgpt"

def chatgptConfig : TargetSiteConfig :=
  { id := "chatgpt", name := "ChatGPT", baseUrl := "https://chatgpt.com/",
    promptParam := some "q" }

def kimiConfig : TargetSiteConfig :=
  { id := "kimi", name := "Kimi", baseUrl := "https://www.kimi.com/",
    promptParam := none }

/-- The `TARGET_SITE_CONFIGS` table of background.js, in source order. -/
def TARGET_SITE_CONFIGS : List TargetSiteConfig := [chatgptConfig, kimiConfig]

/-- The property names every plain JavaScript object literal inherits from
`Object.prototype`.  A bracket lookup `obj[key]` with one of these keys
returns the inherited member (a function, or for `__proto__` the prototype
object), which is truthy. -/
def OBJECT_PROTOTYPE_KEYS : List String :=
  ["constructor", "hasOwnProperty", "isPrototypeOf", "propertyIsEnumerable",
   "toLocaleString", "toString", "valueOf", "__defineGetter__",
   "__defineSetter__", "__lookupGetter__", "__lookupSetter__", "__proto__"]

/-- The value of the JavaScript expression
`TARGET_SITE_CONFIGS[targetSite] || null`: `null` (falsy), an own entry of
the table, or a member inherited from `Object.prototype` — truthy, hence not
replaced by `null`, but not a site config. -/
inductive TargetLookup where
  | noConfig
  | ownConfig (cfg : TargetSiteConfig)
  | inheritedMember
deriving DecidableEq, Repr

/-- JavaScript truthiness of a `TargetLookup` value: only `null` is falsy. -/
def TargetLookup.truthy : TargetLookup → Bool
  | .noConfig => false
  | .ownConfig _ => true
  | .inheritedMember => true

/-- `getTargetSiteConfig` (background.js lines 213-219): falsy or non-string
ids yield null (a missing argument is modelled by the empty string, both are
falsy); otherwise the bracket lookup returns the own table entry when the id
is a table key, an inherited `Object.prototype` member when the id is one of
those property names (truthy, so `|| null` does not replace it), and null
only for all other ids. -/
def getTargetSiteConfig (targetSite : String) : TargetLookup :=
  if targetSite = "" then .noConfig
  else
    match TARGET_SITE_CONFIGS.find? (fun c => c.id = targetSite) with
    | some cfg => .ownConfig cfg
    | none =>
      if OBJECT_PROTOTYPE_KEYS.contains targetSite then .inheritedMember
      else .noConfig

/-- `VALID_TARGET_SITES` of the options page (part_001 line 3). -/
def VALID_TARGET_SITES : List String := ["chatgpt", "kimi"]

/-! ## Destination settings and normalization
(background.js lines 84-106 and the options page's copy at part_001 lines
46-68).  The two copies differ in their validity test: the background one
asks for truthiness of `getTargetSiteConfig(site)` — which inherited
`Object.prototype` property names also pass — while the options one uses the
strict array membership `VALID_TARGET_SITES.includes(site)`. -/

/-- The raw persisted destination-settings record.  `targetSites = none`
models the field being absent or not an array; `targetSite = none` models the
legacy field being absent or not a string. -/
structure RawTargetSettings where
  targetSites : Option (List String)
  targetSite : Option String
deriving DecidableEq, Repr

/-- Insertion into a JavaScript `Set`, which iterates in insertion order and
ignores re-insertion of a present element. -/
def setAdd (l : List String) (x : String) : List String :=
  if x ∈ l then l else l ++ [x]

/-- `normalizeTargetSettings` (background.js lines 84-106): collect the
entries of `targetSites` whose lookup is truthy, in order, into a `Set`,
merge the legacy single-id `targetSite` field, and fall back to the default
destination id when nothing truthy remains.  The whole stored record may be
`undefined` (`none`).  Because the truthiness test also accepts inherited
`Object.prototype` property names, such unknown ids are kept. -/
def normalizeTargetSettings (settings : Option RawTargetSettings) : List String :=
  let fromArray : List String :=
    match settings with
    | none => []
    | some r =>
      match r.targetSites with
      | none => []
      | some sites =>
        sites.foldl
          (fun acc site =>
            if (getTargetSiteConfig site).truthy then setAdd acc site else acc)
          []
  let withLegacy : List String :=
    match settings with
    | none => fromArray
    | some r =>
      match r.targetSite with
      | none => fromArray
      | some t =>
        if (getTargetSiteConfig t).truthy then setAdd fromArray t else fromArray
  if withLegacy = [] then [DEFAULT_TARGET_SITE] else withLegacy

/-- `normalizeTargetSettings` of the options page (part_001 lines 46-68):
same structure, but an id is accepted exactly when
`VALID_TARGET_SITES.includes(site)` holds, so inherited object properties
cannot pass. -/
def normalizeTargetSettingsOptions (settings : Option RawTargetSettings) : List String :=
  let fromArray : List String :=
    match settings with
    | none => []
    | some r =>
      match r.targetSites with
      | none => []
      | some sites =>
        sites.foldl
          (fun acc site =>
            if VALID_TARGET_SITES.contains site then setAdd acc site else acc)
          []
  let withLegacy : List String :=
    match settings with
    | none => fromArray
    | some r =>
      match r.targetSite with
      | none => fromArray
      | some t =>
        if VALID_TARGET_SITES.contains t then setAdd fromArray t else fromArray
  if withLegacy = [] then [DEFAULT_TARGET_SITE] else withLegacy

/-! ## Payload construction (background.js lines 198-206) -/

/-- `buildFinalText` (background.js lines 198-206): template-literal
concatenation of the prompt template and the page URL. -/
def buildFinalText (promptTemplate : String) (url : String) : String :=
  promptTemplate ++ url

/-! ## Prompt store (background.js lines 51-136; part_001 lines 13-96) -/

/-- A saved prompt template. -/
structure Prompt where
  id : String
  title : String
  content : String
deriving DecidableEq, Repr

/-- The prompt store as returned by the loaders: a prompt list plus the
active prompt id. -/
structure PromptStore where
  prompts : List Prompt
  activePromptId : String
deriving DecidableEq, Repr

/-- `createDefaultStore` (background.js lines 55-67; part_001 lines 17-29).
Both versions generate a fresh id (timestamp-based resp. timestamp+random);
the generated id is passed in as `newId`. -/
def createDefaultStore (newId : String) : PromptStore :=
  { prompts := [{ id := newId, title := "博客总结",
                  content := "请用中文总结这篇文章的核心观点，并给出3条可执行建议：\n" }],
    activePromptId := newId }

/-- What a storage read of the prompt-store key can yield: the key absent, or
a record whose `prompts` field may be missing/not-an-array (`none`) and whose
`activePromptId` may be missing (`none`). -/
inductive StoredPromptValue where
  | absent
  | record (prompts : Option (List Prompt)) (activePromptId : Option String)
deriving DecidableEq, Repr

/-- `loadPromptStore` (background.js lines 112-136).  The storage read is an
explicit input (`Except.error` models a throwing read); the result pairs the
returned store with the store written back to storage, if any. -/
def loadPromptStore (read : Except Unit StoredPromptValue) (newId : String) :
    PromptStore × Option PromptStore :=
  match read with
  | .error _ =>
    let d := createDefaultStore newId
    (d, some d)
  | .ok .absent =>
    let d := createDefaultStore newId
    (d, some d)
  | .ok (.record ps active) =>
    match ps with
    | none => let d := createDefaultStore newId; (d, some d)
    | some [] => let d := createDefaultStore newId; (d, some d)
    | some (p :: rest) =>
      match active with
      | some a =>
        if (p :: rest).any (fun q => q.id = a) then
          ({ prompts := p :: rest, activePromptId := a }, none)
        else
          let repaired : PromptStore := { prompts := p :: rest, activePromptId := p.id }
          (repaired, some repaired)
      | none =>
        let repaired : PromptStore := { prompts := p :: rest, activePromptId := p.id }
        (repaired, some repaired)

/-- `loadStore` of the options page (part_001 lines 74-96): identical to the
background loader except that a throwing storage read returns the default
store without persisting it. -/
def loadStore (read : Except Unit StoredPromptValue) (newId : String) :
    PromptStore × Option PromptStore :=
  match read with
  | .error _ => (createDefaultStore newId, none)
  | .ok v => loadPromptStore (.ok v) newId

/-! ## Destination-settings loader (background.js lines 142-163;
the options-page copy at part_001 lines 102-123 is identical) -/

/-- `createDefaultTargetSettings` (background.js lines 73-77). -/
def createDefaultTargetSettings : List String := [DEFAULT_TARGET_SITE]

/-- `loadTargetSettings` (background.js lines 142-163): normalize the raw
record, write the normalized value back only when the stored record does not
already have the same shape, and on a throwing read persist and return the
defaults.  Result: returned `targetSites` list plus the write-back, if any. -/
def loadTargetSettings (read : Except Unit (Option RawTargetSettings)) :
    List String × Option (List String) :=
  match read with
  | .error _ => (createDefaultTargetSettings, some createDefaultTargetSettings)
  | .ok raw =>
    let normalized := normalizeTargetSettings raw
    let hasSameShape : Bool :=
      match raw with
      | none => false
      | some r =>
        match r.targetSites with
        | none => false
        | some sites =>
          (sites.length == normalized.length) && sites.all (fun s => normalized.contains s)
    if hasSameShape then (normalized, none) else (normalized, some normalized)

/-- The `id` property read from a pushed lookup result: the config's own id,
or `undefined` (`none`) for an inherited `Object.prototype` member. -/
def TargetLookup.siteId : TargetLookup → Option String
  | .ownConfig cfg => some cfg.id
  | _ => none

/-- `resolveEnabledTargetConfigs` (background.js lines 170-190): map the
enabled ids to lookup results in order, skipping falsy lookups and lookups
whose `id` property is already in `seenSiteIds` (that property is
`undefined` for inherited Object.prototype members, which therefore
deduplicate against each other), falling back to the chatgpt config when
nothing was pushed.  The accumulator pairs the pushed list with the
`seenSiteIds` set. -/
def resolveEnabledTargetConfigs (targetSites : List String) : List TargetLookup :=
  let step := fun (acc : List TargetLookup × List (Option String)) (siteId : String) =>
    match getTargetSiteConfig siteId with
    | .noConfig => acc
    | .ownConfig cfg =>
      if acc.2.contains (some cfg.id) then acc
      else (acc.1 ++ [TargetLookup.ownConfig cfg], acc.2 ++ [some cfg.id])
    | .inheritedMember =>
      if acc.2.contains none then acc
      else (acc.1 ++ [TargetLookup.inheritedMember], acc.2 ++ [none])
  let resolved := targetSites.foldl step ([], [])
  if resolved.1 = [] then [TargetLookup.ownConfig chatgptConfig] else resolved.1

/-! ## Send flow (background.js lines 341-361) -/

/-- The URL validation of `runSendFlow`: the regex `^https?:\x2f\x2f`, i.e.
the URL starts with `http://` or `https://` (stated on the character list so
that it evaluates by kernel reduction). -/
def isSupportedUrl (u : String) : Bool :=
  "http://".data.isPrefixOf u.data || "https://".data.isPrefixOf u.data

/-- The observable effects of one `runSendFlow` invocation: whether it
aborted at URL validation, the storage write-backs performed by the two
loaders, and the tabs opened — recorded as (destination id, delivered
payload) pairs, one per resolved lookup entry; the id is `none` when an
inherited Object.prototype member was pushed (its `id` is `undefined`). -/
structure FlowEffects where
  aborted : Bool
  promptStoreWrite : Option PromptStore
  targetStoreWrite : Option (List String)
  openedTabs : List (Option String × String)
deriving DecidableEq, Repr

/-- The no-side-effect abort result of `runSendFlow`. -/
def abortedFlow : FlowEffects :=
  { aborted := true, promptStoreWrite := none, targetStoreWrite := none,
    openedTabs := [] }

/-- `runSendFlow` (background.js lines 341-361).  Storage reads and the fresh
default-prompt id are explicit inputs; tab creation and message delivery per
destination are recorded in `openedTabs`. -/
def runSendFlow (tabUrl : Option String)
    (promptRead : Except Unit StoredPromptValue) (newId : String)
    (targetRead : Except Unit (Option RawTargetSettings)) : FlowEffects :=
  match tabUrl with
  | none => abortedFlow
  | some u =>
    if u = "" || !(isSupportedUrl u) then abortedFlow
    else
      let loadedPrompts := loadPromptStore promptRead newId
      let store := loadedPrompts.1
      let promptContent :=
        match store.prompts.find? (fun p => p.id == store.activePromptId) with
        | some p => if p.content = "" then "请总结以下链接内容：\n" else p.content
        | none => "请总结以下链接内容：\n"
      let finalText := buildFinalText promptContent u
      let loadedTargets := loadTargetSettings targetRead
      let configs := resolveEnabledTargetConfigs loadedTargets.1
      { aborted := false, promptStoreWrite := loadedPrompts.2,
        targetStoreWrite := loadedTargets.2,
        openedTabs := configs.map (fun c => (c.siteId, finalText)) }

/-! ## Options-page prompt operations (part_001 lines 157-240, 301-328) -/

/-- The delete-button handler (part_001 lines 216-236): refuse to delete the
last remaining prompt; otherwise drop the prompt, move the active id to the
first survivor when the active prompt was deleted, and save.  When the filter
leaves no survivor (only possible with duplicated ids), `nextPrompts[0].id`
throws in JavaScript after the prompt list was already replaced, and the
catch handler saves nothing. -/
def deletePrompt (store : PromptStore) (targetId : String) :
    PromptStore × Option PromptStore :=
  if store.prompts.length ≤ 1 then (store, none)
  else
    let nextPrompts := store.prompts.filter (fun p => p.id != targetId)
    if store.activePromptId = targetId then
      match nextPrompts with
      | [] => ({ prompts := nextPrompts, activePromptId := store.activePromptId }, none)
      | q :: _ =>
        let s : PromptStore := { prompts := nextPrompts, activePromptId := q.id }
        (s, some s)
    else
      let s : PromptStore := { prompts := nextPrompts, activePromptId := store.activePromptId }
      (s, some s)

/-- The create-form handler (part_001 lines 301-328): reject blank title or
content, otherwise unshift a new prompt (content gets a trailing newline)
and save. -/
def createPrompt (store : PromptStore) (newId title content : String) :
    PromptStore × Option PromptStore :=
  if title.trim = "" || content.trim = "" then (store, none)
  else
    let s : PromptStore :=
      { prompts := { id := newId, title := title.trim, content := content.trim ++ "\n" }
          :: store.prompts,
        activePromptId := store.activePromptId }
    (s, some s)

/-- The save-button handler (part_001 lines 189-203): reject blank content,
otherwise replace the prompt's content by the trimmed text plus a newline
and save. -/
def savePromptContent (store : PromptStore) (targetId updatedContent : String) :
    PromptStore × Option PromptStore :=
  if updatedContent.trim = "" then (store, none)
  else
    let s : PromptStore :=
      { prompts := store.prompts.map
          (fun p => if p.id = targetId
            then { p with content := updatedContent.trim ++ "\n" } else p),
        activePromptId := store.activePromptId }
    (s, some s)

/-- The activate-button handler (part_001 lines 205-214): set the active id
and save. -/
def activatePrompt (store : PromptStore) (targetId : String) :
    PromptStore × Option PromptStore :=
  let s : PromptStore := { store with activePromptId := targetId }
  (s, some s)

/-! ## Message delivery with retry (background.js lines 249-280) -/

def MESSAGE_RETRY_LIMIT : Nat := 8

def MESSAGE_RETRY_DELAY_MS : Nat := 600

/-- Outcome of delivering one task message to one tab. -/
inductive DeliveryResult where
  | delivered (attempt : Nat)
  | abandoned
deriving DecidableEq, Repr

/-- `sendTaskMessageToTab` (background.js lines 249-280).  `listening k`
tells whether the content script answers the attempt with retry counter `k`
(no `runtime.lastError`); on failure the send is retried after
`MESSAGE_RETRY_DELAY_MS` unless the retry counter has reached
`MESSAGE_RETRY_LIMIT`, in which case the failure is logged and the delivery
abandoned. -/
def sendTaskMessageToTab (listening : Nat → Bool) (retry : Nat) : DeliveryResult :=
  if listening retry then .delivered retry
  else if MESSAGE_RETRY_LIMIT ≤ retry then .abandoned
  else sendTaskMessageToTab listening (retry + 1)
termination_by MESSAGE_RETRY_LIMIT + 1 - retry
decreasing_by simp [MESSAGE_RETRY_LIMIT] at *; omega

/-- The per-destination dispatch of `runSendFlow` step 5 (background.js line
357, `Promise.all` over `openTargetAndDispatchTask`): each destination's
delivery runs with its own environment and retry counter 0. -/
def dispatchToAllTabs (tasks : List (String × (Nat → Bool))) :
    List (String × DeliveryResult) :=
  tasks.map (fun t => (t.1, sendTaskMessageToTab t.2 0))

/-! ## Page-side injector (part_001 lines 332-804) -/

def MAX_WAIT_MS : Nat := 30000

def POLL_INTERVAL_MS : Nat := 250

def DEDUPE_WINDOW_MS : Nat := 15000

def MESSAGE_ACTION : String := "omnistitch_auto_send"

/-- A site adapter of `TARGET_SITE_ADAPTERS` (part_001 lines 341-434). -/
structure SiteAdapter where
  id : String
  name : String
  hostnames : List String
  composerSelectors : List String
  sendButtonSelectors : List String
deriving DecidableEq, Repr

def chatgptAdapter : SiteAdapter :=
  { id := "chatgpt", name := "ChatGPT",
    hostnames := ["chatgpt.com", "chat.openai.com"],
    composerSelectors :=
      ["textarea#prompt-textarea",
       "textarea[data-id=\"root\"]",
       "textarea",
       "div[contenteditable=\"true\"][id=\"prompt-textarea\"]",
       "div[contenteditable=\"true\"][role=\"textbox\"]",
       "div[contenteditable=\"true\"]"],
    sendButtonSelectors :=
      ["button[data-testid=\"send-button\"]",
       "button[aria-label*=\"Send\"]",
       "button[aria-label*=\"发送\"]",
       "button[type=\"submit\"]"] }

def kimiAdapter : SiteAdapter :=
  { id := "kimi", name := "Kimi",
    hostnames := ["kimi.com", "www.kimi.com"],
    composerSelectors :=
      ["div.chat-input-editor[contenteditable=\"true\"]",
       "textarea",
       "div[contenteditable=\"true\"][role=\"textbox\"]",
       "div[contenteditable=\"true\"]"],
    sendButtonSelectors :=
      ["div.send-button-container",
       "div.chat-editor-action div.send-button-container",
       "button[aria-label*=\"发送\"]",
       "button[aria-label*=\"Send\"]",
       "button[data-testid*=\"send\"]",
       "button[class*=\"send\"]",
       "button[type=\"submit\"]"] }

def deepseekAdapter : SiteAdapter :=
  { id := "deepseek", name := "DeepSeek",
    hostnames := ["chat.deepseek.com"],
    composerSelectors :=
      ["textarea[placeholder*=\"给 DeepSeek 发送消息\"]",
       "textarea#chat-input",
       "div#chat-input[contenteditable=\"true\"]",
       "textarea[placeholder*=\"DeepSeek\"]",
       "textarea",
       "div[contenteditable=\"true\"][role=\"textbox\"]",
       "div[contenteditable=\"true\"]"],
    sendButtonSelectors :=
      ["div[role=\"button\"]._7436101[aria-disabled=\"false\"]",
       "div[role=\"button\"]._7436101:not(.ds-icon-button--disabled)",
       "button#send-message-button",
       "button[aria-label*=\"Send\"]",
       "button[aria-label*=\"发送\"]",
       "button[data-testid*=\"send\"]",
       "button[class*=\"send\"]",
       "button[type=\"submit\"]",
       "div[class*=\"send\"]"] }

def geminiAdapter : SiteAdapter :=
  { id := "gemini", name := "Gemini",
    hostnames := ["gemini.google.com"],
    composerSelectors :=
      ["div.ql-editor.textarea[contenteditable=\"true\"]",
       "rich-textarea div[contenteditable=\"true\"]",
       "div.input-area div[contenteditable=\"true\"]",
       "textarea[aria-label*=\"Enter a prompt\"]",
       "div[role=\"textbox\"][aria-label*=\"Gemini\"]",
       "textarea[placeholder*=\"prompt\"]",
       "textarea",
       "div[contenteditable=\"true\"][role=\"textbox\"]",
       "div[contenteditable=\"true\"]"],
    sendButtonSelectors :=
      ["button.send-button",
       "button[aria-label=\"发送\"]",
       "button[aria-label*=\"Send message\"]",
       "button[aria-label*=\"Send\"]",
       "button[aria-label*=\"发送\"]",
       "button[data-test-id*=\"send\"]",
       "button[data-testid*=\"send\"]",
       "button[class*=\"send\"]",
       "button[type=\"submit\"]",
       "div[class*=\"send\"]"] }

/-- `TARGET_SITE_ADAPTERS` (part_001 lines 341-434), in source order. -/
def TARGET_SITE_ADAPTERS : List SiteAdapter :=
  [chatgptAdapter, kimiAdapter, deepseekAdapter, geminiAdapter]

/-- `detectCurrentSiteAdapter` (part_001 lines 452-465).  `hostname` is the
page's already-lowercased hostname; an adapter matches when the hostname
equals one of its registered hostnames or is a subdomain of one. -/
def detectCurrentSiteAdapter (hostname : String) : Option SiteAdapter :=
  TARGET_SITE_ADAPTERS.find?
    (fun adapter => adapter.hostnames.any
      (fun domain => hostname == domain || hostname.endsWith ("." ++ domain)))

/-- `getSiteAdapterById` (part_001 lines 472-484): falsy or non-string ids
yield null, otherwise look the id up in the adapter table. -/
def getSiteAdapterById (siteId : Option String) : Option SiteAdapter :=
  match siteId with
  | none => none
  | some s => if s = "" then none else TARGET_SITE_ADAPTERS.find? (fun a => a.id = s)

/-! ### Execution guard (part_001 lines 436-438, 490-508) -/

/-- The module-level duplicate-suppression state `lastExecutedText` /
`lastExecutedAt` of the content script.  `isRunning` is tracked separately as
an argument of `runWithText`. -/
structure DedupeState where
  lastExecutedText : String
  lastExecutedAt : Nat
deriving DecidableEq, Repr

/-- The state at content-script start (part_001 lines 437-438). -/
def initialDedupeState : DedupeState := { lastExecutedText := "", lastExecutedAt := 0 }

/-- `markExecution` (part_001 lines 490-493): record the payload and the
current time. -/
def markExecution (text : String) (now : Nat) : DedupeState :=
  { lastExecutedText := text, lastExecutedAt := now }

/-- `isRecentlyExecuted` (part_001 lines 500-508): an empty incoming text or
an empty last-executed text never counts; otherwise the texts must be equal
and the elapsed time at most `DEDUPE_WINDOW_MS`.  The subtraction is over
`Int`, as in JavaScript. -/
def isRecentlyExecuted (d : DedupeState) (now : Nat) (text : String) : Bool :=
  if text = "" || d.lastExecutedText = "" then false
  else
    (text == d.lastExecutedText)
      && decide ((now : Int) - (d.lastExecutedAt : Int) ≤ (DEDUPE_WINDOW_MS : Int))

/-! ### DOM model and send trigger (part_001 lines 600-667) -/

/-- A DOM element as the injector observes it: its dynamic-type facts, its
disabled flag, its computed `pointer-events`, and the set of adapter
selectors it matches. -/
structure Elem where
  isHTMLElement : Bool
  isButtonElement : Bool
  disabled : Bool
  pointerEventsNone : Bool
  matchedSelectors : List String
deriving DecidableEq, Repr

/-- `querySelector` on a scope given as its element list in document order:
the first element matching the selector. -/
def querySelector (elems : List Elem) (sel : String) : Option Elem :=
  elems.find? (fun e => e.matchedSelectors.contains sel)

/-- The page as seen from the composer: the element list of the composer's
enclosing form (`composer.closest(\x22form\x22)`), if any, and the full
document element list, both in document order. -/
structure Page where
  composerForm : Option (List Elem)
  documentElems : List Elem
deriving DecidableEq, Repr

/-- One selector-loop of `findSendButton` (part_001 lines 603-616): try the
selectors in order; a match that is not an HTMLElement is skipped and the
next selector is tried. -/
def findOverSelectors (selectors : List String) (elems : List Elem) : Option Elem :=
  match selectors with
  | [] => none
  | sel :: rest =>
    match querySelector elems sel with
    | some e => if e.isHTMLElement then some e else findOverSelectors rest elems
    | none => findOverSelectors rest elems

/-- `findSendButton` (part_001 lines 600-619): search the composer's
enclosing form first, then the whole document. -/
def findSendButton (adapter : SiteAdapter) (page : Page) : Option Elem :=
  match page.composerForm with
  | some formElems =>
    match findOverSelectors adapter.sendButtonSelectors formElems with
    | some e => some e
    | none => findOverSelectors adapter.sendButtonSelectors page.documentElems
  | none => findOverSelectors adapter.sendButtonSelectors page.documentElems

/-- What `triggerSend` did: clicked a send control, or dispatched the
synthetic Enter keydown on the composer. -/
inductive SendAction where
  | clicked (e : Elem)
  | enterKeyFallback
deriving DecidableEq, Repr

/-- `triggerSend` (part_001 lines 644-667): click the found element when it
is not a disabled button element and its computed `pointer-events` is not
`none`; otherwise fall back to the synthetic Enter keydown. -/
def triggerSend (adapter : SiteAdapter) (page : Page) : SendAction :=
  match findSendButton adapter page with
  | some sendButton =>
    if (!sendButton.isButtonElement || !sendButton.disabled)
        && !sendButton.pointerEventsNone then
      .clicked sendButton
    else .enterKeyFallback
  | none => .enterKeyFallback

/-! ### `runWithText` (part_001 lines 674-719) -/

/-- Outcome of one `runWithText` invocation. -/
inductive RunOutcome where
  | droppedBusy
  | invalidPayload
  | skippedDuplicate
  | noAdapterMatched
  | composerTimedOut
  | filledAndSent (send : SendAction)
deriving DecidableEq, Repr

/-- The adapter resolution of `runWithText` line 692: the explicitly named
site, else hostname detection. -/
def resolveAdapter (preferredSiteId : Option String) (hostname : String) :
    Option SiteAdapter :=
  match getSiteAdapterById preferredSiteId with
  | some a => some a
  | none => detectCurrentSiteAdapter hostname

/-- `runWithText` (part_001 lines 674-719).  `running` is the `isRunning`
guard at invocation time; `now` the clock when the synchronous prefix runs;
`composerAppears` tells whether `waitForComposer` resolves within
`MAX_WAIT_MS`.  The returned `DedupeState` is the module state after the
invocation: `markExecution` is the only writer and runs before the composer
wait, so this is also the state any concurrent reader observes from the wait
onwards.  `isRunning` is true from invocation start until the 1500 ms
cool-down after completion re-arms it. -/
def runWithText (running : Bool) (d : DedupeState) (now : Nat)
    (finalText : String) (preferredSiteId : Option String) (hostname : String)
    (composerAppears : Bool) (page : Page) : DedupeState × RunOutcome :=
  if running then (d, .droppedBusy)
  else if finalText = "" then (d, .invalidPayload)
  else if isRecentlyExecuted d now finalText then (d, .skippedDuplicate)
  else
    match resolveAdapter preferredSiteId hostname with
    | none => (d, .noAdapterMatched)
    | some adapter =>
      let d2 := markExecution finalText now
      if composerAppears then (d2, .filledAndSent (triggerSend adapter page))
      else (d2, .composerTimedOut)

/-- Reply of the runtime-message listener. -/
inductive MessageReply where
  | ignored
  | skippedDuplicate
  | handled (outcome : RunOutcome)
deriving DecidableEq, Repr

/-- The `chrome.runtime.onMessage` listener (part_001 lines 770-798): ignore
foreign actions, answer `skipped` for a payload still inside the dedupe
window, otherwise run `runWithText` with the message's target site. -/
def onRuntimeMessage (running : Bool) (d : DedupeState) (now : Nat)
    (action : String) (targetSite : Option String) (finalText : String)
    (hostname : String) (composerAppears : Bool) (page : Page) :
    DedupeState × MessageReply :=
  if !(action == MESSAGE_ACTION) then (d, .ignored)
  else if isRecentlyExecuted d now finalText then (d, .skippedDuplicate)
  else
    let r := runWithText running d now finalText targetSite hostname composerAppears page
    (r.1, .handled r.2)

/-! ### Spec-side send-control search (for refinement comparison only)

The following two definitions follow the SPECIFICATION's words for the send
trigger — "search first within the same form as the composer, then globally,
for the first matching, non-disabled, pointer-interactable send control from
the adapter's ordered list; click it.  If no usable control is found, fall
back to dispatching a synthetic Enter key event" — to be compared with the
source-derived `triggerSend` above. -/

/-- A send control is usable in the spec's sense: a real HTML element that is
not a disabled button and is pointer-interactable. -/
def usableControl (e : Elem) : Bool :=
  e.isHTMLElement && (!e.isButtonElement || !e.disabled) && !e.pointerEventsNone

/-- Spec-side search: the first *usable* element matching some selector, in
selector order. -/
def findUsableOverSelectors (selectors : List String) (elems : List Elem) :
    Option Elem :=
  match selectors with
  | [] => none
  | sel :: rest =>
    match (elems.filter (fun e => e.matchedSelectors.contains sel)).find?
        (fun e => usableControl e) with
    | some e => some e
    | none => findUsableOverSelectors rest elems

/-- Spec-side `triggerSend`: click the first usable matching control, form
first then globally; only when no usable control exists anywhere fall back
to the Enter key. -/
def triggerSendSpec (adapter : SiteAdapter) (page : Page) : SendAction :=
  let found :=
    match page.composerForm with
    | some formElems =>
      match findUsableOverSelectors adapter.sendButtonSelectors formElems with
      | some e => some e
      | none => findUsableOverSelectors adapter.sendButtonSelectors page.documentElems
    | none => findUsableOverSelectors adapter.sendButtonSelectors page.documentElems
  match found with
  | some e => .clicked e
  | none => .enterKeyFallback

/-! ## Concrete pages used in the send-trigger analysis -/

/-- A disabled send button matching the chatgpt adapter's first send
selector. -/
def ceA : Elem :=
  { isHTMLElement := true, isButtonElement := true, disabled := true,
    pointerEventsNone := false,
    matchedSelectors := ["button[data-testid=\"send-button\"]"] }

/-- A usable send button matching the chatgpt adapter's first send selector,
placed after `ceA` in document order. -/
def ceB : Elem :=
  { isHTMLElement := true, isButtonElement := true, disabled := false,
    pointerEventsNone := false,
    matchedSelectors := ["button[data-testid=\"send-button\"]"] }

/-- A page whose composer form holds the disabled button first and the
usable one second. -/
def cePage : Page :=
  { composerForm := some [ceA, ceB], documentElems := [ceA, ceB] }

/-- A page with no enclosing form and a single usable send button. -/
def usablePage : Page :=
  { composerForm := none, documentElems := [ceB] }

/-! ## Proof-side abbreviations for pieces of the two normalizations,
parameterized by the validity test of the respective copy -/

/-- The id-filter step of a normalization, for a given validity test. -/
def normStep (valid : String → Bool) (acc : List String) (site : String) :
    List String :=
  if valid site then setAdd acc site else acc

/-- The contribution of the `targetSites` array to the normalized set. -/
def fromArraySites (valid : String → Bool) (ts : Option (List String)) :
    List String :=
  match ts with
  | none => []
  | some sites => sites.foldl (normStep valid) []

/-- The legacy-field merge step of a normalization. -/
def legacyStep (valid : String → Bool) (fa : List String) (tl : Option String) :
    List String :=
  match tl with
  | none => fa
  | some t => if valid t then setAdd fa t else fa

/-- The final default-fallback step of a normalization. -/
def normBody (valid : String → Bool) (fa : List String) (tl : Option String) :
    List String :=
  if legacyStep valid fa tl = [] then [DEFAULT_TARGET_SITE]
  else legacyStep valid fa tl

/-- The background copy's validity test: JS truthiness of the bracket
lookup. -/
def truthyLookup (site : String) : Bool := (getTargetSiteConfig site).truthy

/-- The options copy's validity test: strict membership in
`VALID_TARGET_SITES`. -/
def strictValid (site : String) : Bool := VALID_TARGET_SITES.contains site

/-! ## Theorems -/

theorem mem_setAdd {l : List String} {x y : String} :
    y ∈ setAdd l x ↔ y ∈ l ∨ y = x := by
  unfold setAdd
  split
  · rename_i h
    constructor
    · exact fun hy => Or.inl hy
    · rintro (hy | rfl)
      · exact hy
      · exact h
  · simp [List.mem_append]

theorem self_mem_setAdd (l : List String) (x : String) : x ∈ setAdd l x :=
  mem_setAdd.mpr (Or.inr rfl)

theorem foldl_normStep_valid (valid : String → Bool) (sites init : List String)
    (h : ∀ x ∈ init, valid x = true) :
    ∀ x ∈ sites.foldl (normStep valid) init, valid x = true := by
  induction sites generalizing init with
  | nil => simpa using h
  | cons s ss ih =>
    intro x hx
    simp only [List.foldl_cons] at hx
    refine ih (normStep valid init s) ?_ x hx
    intro y hy
    unfold normStep at hy
    split at hy
    · rename_i hv
      rcases mem_setAdd.mp hy with hy1 | rfl
      · exact h y hy1
      · exact hv
    · exact h y hy

theorem normalizeTargetSettings_none :
    normalizeTargetSettings none = [DEFAULT_TARGET_SITE] := rfl

theorem normalizeTargetSettingsOptions_none :
    normalizeTargetSettingsOptions none = [DEFAULT_TARGET_SITE] := rfl

theorem normalizeTargetSettings_some (ts : Option (List String)) (tl : Option String) :
    normalizeTargetSettings (some { targetSites := ts, targetSite := tl })
      = normBody truthyLookup (fromArraySites truthyLookup ts) tl := rfl

theorem normalizeTargetSettingsOptions_some (ts : Option (List String))
    (tl : Option String) :
    normalizeTargetSettingsOptions (some { targetSites := ts, targetSite := tl })
      = normBody strictValid (fromArraySites strictValid ts) tl := rfl

theorem legacyStep_none (valid : String → Bool) (fa : List String) :
    legacyStep valid fa none = fa := rfl

theorem legacyStep_some (valid : String → Bool) (fa : List String) (t : String) :
    legacyStep valid fa (some t) = if valid t then setAdd fa t else fa := rfl

theorem fromArraySites_valid (valid : String → Bool) (ts : Option (List String)) :
    ∀ x ∈ fromArraySites valid ts, valid x = true := by
  rcases ts with _ | sites
  · simp [fromArraySites]
  · exact foldl_normStep_valid valid sites [] (by simp)

theorem legacyStep_valid (valid : String → Bool) (fa : List String)
    (hfa : ∀ x ∈ fa, valid x = true) (tl : Option String) :
    ∀ x ∈ legacyStep valid fa tl, valid x = true := by
  rcases tl with _ | t
  · rw [legacyStep_none]
    exact hfa
  · rw [legacyStep_some]
    by_cases hv : valid t = true
    · rw [if_pos hv]
      intro x hx
      rcases mem_setAdd.mp hx with h1 | rfl
      · exact hfa x h1
      · exact hv
    · rw [if_neg hv]
      exact hfa

theorem normBody_ne_nil (valid : String → Bool) (fa : List String)
    (tl : Option String) : normBody valid fa tl ≠ [] := by
  unfold normBody
  split
  · simp
  · assumption

theorem normBody_valid (valid : String → Bool) (fa : List String)
    (hfa : ∀ x ∈ fa, valid x = true) (tl : Option String)
    (hdef : valid DEFAULT_TARGET_SITE = true) :
    ∀ x ∈ normBody valid fa tl, valid x = true := by
  unfold normBody
  split
  · intro x hx
    rcases List.mem_singleton.mp hx with rfl
    exact hdef
  · exact legacyStep_valid valid fa hfa tl

theorem normBody_legacy_mem (valid : String → Bool) (fa : List String)
    (t : String) (hv : valid t = true) : t ∈ normBody valid fa (some t) := by
  have hstep : legacyStep valid fa (some t) = setAdd fa t := by
    rw [legacyStep_some, if_pos hv]
  have hmem := self_mem_setAdd fa t
  unfold normBody
  rw [hstep]
  rw [if_neg (List.ne_nil_of_mem hmem)]
  exact hmem

theorem normalizeTargetSettingsOptions_ne_nil (s : Option RawTargetSettings) :
    normalizeTargetSettingsOptions s ≠ [] := by
  rcases s with _ | ⟨ts, tl⟩
  · rw [normalizeTargetSettingsOptions_none]
    simp
  · rw [normalizeTargetSettingsOptions_some]
    exact normBody_ne_nil strictValid _ tl

theorem normalizeTargetSettingsOptions_all_valid (s : Option RawTargetSettings) :
    (normalizeTargetSettingsOptions s).all strictValid = true := by
  rw [List.all_eq_true]
  intro x hx
  rcases s with _ | ⟨ts, tl⟩
  · rw [normalizeTargetSettingsOptions_none] at hx
    rcases List.mem_singleton.mp hx with rfl
    rfl
  · rw [normalizeTargetSettingsOptions_some] at hx
    exact normBody_valid strictValid _ (fromArraySites_valid strictValid ts) tl
      (by decide) x hx

theorem normalizeTargetSettingsOptions_legacy_chatgpt (ts : Option (List String)) :
    "chatgpt" ∈ normalizeTargetSettingsOptions
      (some { targetSites := ts, targetSite := some "chatgpt" }) := by
  rw [normalizeTargetSettingsOptions_some]
  exact normBody_legacy_mem strictValid _ "chatgpt" (by decide)

theorem normalizeTargetSettingsOptions_legacy_kimi (ts : Option (List String)) :
    "kimi" ∈ normalizeTargetSettingsOptions
      (some { targetSites := ts, targetSite := some "kimi" }) := by
  rw [normalizeTargetSettingsOptions_some]
  exact normBody_legacy_mem strictValid _ "kimi" (by decide)

/-- C3 (code bug): the claimed normalization rule — unknown ids dropped,
fallback to the default when nothing valid remains, result all-valid — is
the documented contract (`getTargetSiteConfig` is annotated to return a
config or null, and the options page's twin implementation enforces it with
a strict `VALID_TARGET_SITES.includes` check), but the background copy tests
validity by JS truthiness of `TARGET_SITE_CONFIGS[site]`, which property
names inherited from `Object.prototype` also pass.  On the stored record
with `targetSites = ["toString"]`, background normalization keeps the
unknown id `"toString"`, skips the default fallback, and
`loadTargetSettings` even judges the record same-shaped and returns it with
no repair — while the options-page copy drops it and falls back, and
satisfies the claimed rule in full (never empty, all ids valid, legacy
single-id merge, and the concrete legacy example). -/
theorem C3_normalize_prototype_key_bug :
    getTargetSiteConfig "toString" = TargetLookup.inheritedMember ∧
    TARGET_SITE_CONFIGS.find? (fun c => c.id = "toString") = none ∧
    strictValid "toString" = false ∧
    normalizeTargetSettings
        (some { targetSites := some ["toString"], targetSite := none })
      = ["toString"] ∧
    loadTargetSettings
        (.ok (some { targetSites := some ["toString"], targetSite := none }))
      = (["toString"], none) ∧
    normalizeTargetSettingsOptions
        (some { targetSites := some ["toString"], targetSite := none })
      = [DEFAULT_TARGET_SITE] ∧
    (∀ s, normalizeTargetSettingsOptions s ≠ []) ∧
    (∀ s, (normalizeTargetSettingsOptions s).all strictValid = true) ∧
    (∀ ts, "chatgpt" ∈ normalizeTargetSettingsOptions
        (some { targetSites := ts, targetSite := some "chatgpt" })) ∧
    (∀ ts, "kimi" ∈ normalizeTargetSettingsOptions
        (some { targetSites := ts, targetSite := some "kimi" })) ∧
    normalizeTargetSettingsOptions
        (some { targetSites := none, targetSite := some "chatgpt" })
      = ["chatgpt"] :=
  ⟨rfl, rfl, rfl, rfl, rfl, rfl,
   normalizeTargetSettingsOptions_ne_nil,
   normalizeTargetSettingsOptions_all_valid,
   normalizeTargetSettingsOptions_legacy_chatgpt,
   normalizeTargetSettingsOptions_legacy_kimi,
   rfl⟩

theorem loadPromptStore_prompts_ne_nil (read : Except Unit StoredPromptValue)
    (newId : String) : (loadPromptStore read newId).1.prompts ≠ [] := by
  rcases read with e | v
  · simp [loadPromptStore, createDefaultStore]
  · rcases v with _ | ⟨ps, a⟩
    · simp [loadPromptStore, createDefaultStore]
    · rcases ps with _ | (_ | ⟨p, rest⟩)
      · simp [loadPromptStore, createDefaultStore]
      · simp [loadPromptStore, createDefaultStore]
      · rcases a with _ | x
        · simp [loadPromptStore]
        · simp only [loadPromptStore]
          split <;> simp

theorem loadStore_prompts_ne_nil (read : Except Unit StoredPromptValue)
    (newId : String) : (loadStore read newId).1.prompts ≠ [] := by
  rcases read with e | v
  · simp [loadStore, createDefaultStore]
  · exact loadPromptStore_prompts_ne_nil (.ok v) newId

/-- C4 counterexample: on a failing storage read the options-page loader
`loadStore` returns the synthesized default store but persists nothing,
refuting the claim that every recovery path persists the default store. -/
theorem C4_counterexample_loadStore_no_persist :
    (loadStore (.error ()) "1700000000000_abc123").1
        = createDefaultStore "1700000000000_abc123" ∧
    (loadStore (.error ()) "1700000000000_abc123").2 = none :=
  ⟨rfl, rfl⟩

/-- C4 (amended): for every stored state that is absent, empty or malformed,
both loaders synthesize one default template with the freshly generated id,
persist that default store and return it; on a failing storage read the
background loader also persists the default, while the options-page loader
returns the default without persisting it.  Both loaders always return a
store containing at least one prompt. -/
theorem C4_loadPrompts_default_and_persist :
    (∀ newId, loadPromptStore (.error ()) newId
        = (createDefaultStore newId, some (createDefaultStore newId))) ∧
    (∀ newId, loadPromptStore (.ok .absent) newId
        = (createDefaultStore newId, some (createDefaultStore newId))) ∧
    (∀ newId a, loadPromptStore (.ok (.record none a)) newId
        = (createDefaultStore newId, some (createDefaultStore newId))) ∧
    (∀ newId a, loadPromptStore (.ok (.record (some []) a)) newId
        = (createDefaultStore newId, some (createDefaultStore newId))) ∧
    (∀ v newId, loadStore (.ok v) newId = loadPromptStore (.ok v) newId) ∧
    (∀ newId, loadStore (.error ()) newId = (createDefaultStore newId, none)) ∧
    (∀ read newId, (loadPromptStore read newId).1.prompts ≠ []) ∧
    (∀ read newId, (loadStore read newId).1.prompts ≠ []) :=
  ⟨fun _ => rfl, fun _ => rfl, fun _ _ => rfl, fun _ _ => rfl, fun _ _ => rfl,
   fun _ => rfl, loadPromptStore_prompts_ne_nil, loadStore_prompts_ne_nil⟩

/-- C5: for every stored prompt store whose `activePromptId` matches no entry
of its non-empty prompt list, both loaders set `activePromptId` to the first
entry's id, persist the repaired store, and return a store whose
`activePromptId` refers to an existing entry. -/
theorem C5_active_id_repair (p : Prompt) (rest : List Prompt) (a : Option String)
    (newId : String) (h : ∀ q ∈ p :: rest, some q.id ≠ a) :
    loadPromptStore (.ok (.record (some (p :: rest)) a)) newId
        = ({ prompts := p :: rest, activePromptId := p.id },
           some { prompts := p :: rest, activePromptId := p.id }) ∧
    loadStore (.ok (.record (some (p :: rest)) a)) newId
        = ({ prompts := p :: rest, activePromptId := p.id },
           some { prompts := p :: rest, activePromptId := p.id }) ∧
    p.id ∈ ({ prompts := p :: rest, activePromptId := p.id } : PromptStore).prompts.map
      Prompt.id := by
  have hmain : loadPromptStore (.ok (.record (some (p :: rest)) a)) newId
      = ({ prompts := p :: rest, activePromptId := p.id },
         some { prompts := p :: rest, activePromptId := p.id }) := by
    rcases a with _ | x
    · rfl
    · have hx : (p :: rest).any (fun q => q.id = x) = false := by
        rw [List.any_eq_false]
        intro q hq
        simp only [decide_eq_true_eq]
        intro he
        exact h q hq (by rw [he])
      simp [loadPromptStore, hx]
  refine ⟨hmain, ?_, by simp⟩
  have hsame : loadStore (.ok (.record (some (p :: rest)) a)) newId
      = loadPromptStore (.ok (.record (some (p :: rest)) a)) newId := rfl
  rw [hsame]
  exact hmain

/-- Witness for C5: a one-entry store with a dangling active id is repaired
to the first entry's id. -/
theorem C5_active_id_repair_witness :
    loadPromptStore
        (.ok (.record (some [{ id := "a1", title := "t", content := "c" }]) (some "zz")))
        "n"
      = ({ prompts := [{ id := "a1", title := "t", content := "c" }],
           activePromptId := "a1" },
         some { prompts := [{ id := "a1", title := "t", content := "c" }],
                activePromptId := "a1" }) :=
  (C5_active_id_repair { id := "a1", title := "t", content := "c" } [] (some "zz") "n"
    (by decide)).1

/-- C7: for every input tab whose URL is missing or does not begin with
`http://` or `https://`, `runSendFlow` aborts with no side effects: no
storage write-back, no tab opened, no message dispatched. -/
theorem C7_unsupported_url_aborts (tabUrl : Option String)
    (promptRead : Except Unit StoredPromptValue) (newId : String)
    (targetRead : Except Unit (Option RawTargetSettings))
    (h : ∀ u, tabUrl = some u → isSupportedUrl u = false) :
    runSendFlow tabUrl promptRead newId targetRead = abortedFlow ∧
    abortedFlow.promptStoreWrite = none ∧
    abortedFlow.targetStoreWrite = none ∧
    abortedFlow.openedTabs = [] ∧
    abortedFlow.aborted = true := by
  refine ⟨?_, rfl, rfl, rfl, rfl⟩
  rcases tabUrl with _ | u
  · rfl
  · have hu := h u rfl
    simp [runSendFlow, hu]

/-- Witness for C7: a `chrome://` source URL makes the flow abort with no
effects. -/
theorem C7_unsupported_url_aborts_witness :
    runSendFlow (some "chrome://extensions") (.ok .absent) "id" (.ok none)
      = abortedFlow :=
  (C7_unsupported_url_aborts (some "chrome://extensions") (.ok .absent) "id" (.ok none)
    (by intro u hu; cases hu; decide)).1

/-- C6: for every template content string and every tab URL, the built
payload is the template content concatenated directly with the URL, with no
separator inserted; in particular the spec's concrete example. -/
theorem C6_buildFinalText_no_separator :
    (∀ promptTemplate url : String,
      buildFinalText promptTemplate url = promptTemplate ++ url) ∧
    buildFinalText "T:\n" "https://example.com/a" = "T:\nhttps://example.com/a" :=
  ⟨fun _ _ => rfl, rfl⟩

theorem filter_ne_nil_of_nodup (l : List Prompt) (t : String)
    (hnd : (l.map Prompt.id).Nodup) (hlen : 2 ≤ l.length) :
    l.filter (fun p => p.id != t) ≠ [] := by
  rcases l with _ | ⟨p, rest⟩
  · simp at hlen
  · rcases rest with _ | ⟨q, rest2⟩
    · simp at hlen
    · by_cases hpid : p.id = t
      · have hq : q.id ≠ t := by
          intro he
          simp only [List.map_cons, List.nodup_cons, List.mem_cons] at hnd
          exact hnd.1 (Or.inl (by rw [he, hpid]))
        intro hcontra
        have hqmem : q ∈ List.filter (fun p => p.id != t) (p :: q :: rest2) := by
          simp [List.mem_filter, hq]
        rw [hcontra] at hqmem
        exact absurd hqmem (List.not_mem_nil q)
      · intro hcontra
        have hpmem : p ∈ List.filter (fun p => p.id != t) (p :: q :: rest2) := by
          simp [List.mem_filter, hpid]
        rw [hcontra] at hpmem
        exact absurd hpmem (List.not_mem_nil p)

theorem deletePrompt_preserves_nonempty (store : PromptStore) (targetId : String)
    (hnd : (store.prompts.map Prompt.id).Nodup) (hne : store.prompts ≠ []) :
    (deletePrompt store targetId).1.prompts ≠ [] := by
  unfold deletePrompt
  by_cases hlen : store.prompts.length ≤ 1
  · rw [if_pos hlen]
    exact hne
  · rw [if_neg hlen]
    have h2 : 2 ≤ store.prompts.length := by omega
    have hnext := filter_ne_nil_of_nodup store.prompts targetId hnd h2
    rcases hf : store.prompts.filter (fun p => p.id != targetId) with _ | ⟨q, qs⟩
    · exact absurd hf hnext
    · rw [hf]
      dsimp only []
      split <;> simp

theorem createPrompt_preserves_nonempty (store : PromptStore)
    (newId title content : String) (hne : store.prompts ≠ []) :
    (createPrompt store newId title content).1.prompts ≠ [] := by
  unfold createPrompt
  split
  · exact hne
  · simp

theorem savePromptContent_preserves_nonempty (store : PromptStore)
    (targetId updatedContent : String) (hne : store.prompts ≠ []) :
    (savePromptContent store targetId updatedContent).1.prompts ≠ [] := by
  unfold savePromptContent
  split
  · exact hne
  · intro hc
    simp only [] at hc
    exact hne (List.map_eq_nil_iff.mp hc)

theorem activatePrompt_preserves_nonempty (store : PromptStore)
    (targetId : String) (hne : store.prompts ≠ []) :
    (activatePrompt store targetId).1.prompts ≠ [] := hne

/-- C8: deleting the sole remaining template is rejected — the store is
returned unchanged and nothing is persisted — and every options-page
operation (delete with distinct ids, create, content save, activate)
preserves the invariant that at least one template exists. -/
theorem C8_delete_last_rejected :
    (∀ (x : Prompt) (activeId targetId : String),
      deletePrompt { prompts := [x], activePromptId := activeId } targetId
        = ({ prompts := [x], activePromptId := activeId }, none)) ∧
    (∀ (store : PromptStore) (targetId : String),
      (store.prompts.map Prompt.id).Nodup → store.prompts ≠ [] →
      (deletePrompt store targetId).1.prompts ≠ []) ∧
    (∀ (store : PromptStore) (newId title content : String),
      store.prompts ≠ [] → (createPrompt store newId title content).1.prompts ≠ []) ∧
    (∀ (store : PromptStore) (targetId updatedContent : String),
      store.prompts ≠ [] →
      (savePromptContent store targetId updatedContent).1.prompts ≠ []) ∧
    (∀ (store : PromptStore) (targetId : String),
      store.prompts ≠ [] → (activatePrompt store targetId).1.prompts ≠ []) :=
  ⟨fun _ _ _ => rfl, deletePrompt_preserves_nonempty, createPrompt_preserves_nonempty,
   savePromptContent_preserves_nonempty, activatePrompt_preserves_nonempty⟩

/-- Witness for C8: deleting the only template of a concrete store is a
no-op with no persist, and deleting from a two-template store keeps at least
one template. -/
theorem C8_delete_last_rejected_witness :
    deletePrompt { prompts := [{ id := "a", title := "t", content := "c" }],
                   activePromptId := "a" } "a"
      = ({ prompts := [{ id := "a", title := "t", content := "c" }],
           activePromptId := "a" }, none) ∧
    (deletePrompt { prompts := [{ id := "a", title := "t", content := "c" },
                                { id := "b", title := "u", content := "d" }],
                    activePromptId := "a" } "a").1.prompts ≠ [] :=
  ⟨C8_delete_last_rejected.1 { id := "a", title := "t", content := "c" } "a" "a",
   C8_delete_last_rejected.2.1
     { prompts := [{ id := "a", title := "t", content := "c" },
                   { id := "b", title := "u", content := "d" }],
       activePromptId := "a" } "a" (by decide) (by decide)⟩

theorem sendTask_abandoned (env : Nat → Bool) (r : Nat)
    (hr : r ≤ MESSAGE_RETRY_LIMIT)
    (h : ∀ k, r ≤ k → k ≤ MESSAGE_RETRY_LIMIT → env k = false) :
    sendTaskMessageToTab env r = .abandoned := by
  have hgen : ∀ (n r2 : Nat), MESSAGE_RETRY_LIMIT + 1 - r2 ≤ n →
      r2 ≤ MESSAGE_RETRY_LIMIT →
      (∀ k, r2 ≤ k → k ≤ MESSAGE_RETRY_LIMIT → env k = false) →
      sendTaskMessageToTab env r2 = .abandoned := by
    intro n
    induction n with
    | zero =>
      intro r2 hn hr2 h2
      simp [MESSAGE_RETRY_LIMIT] at hn hr2
      omega
    | succ n ih =>
      intro r2 hn hr2 h2
      unfold sendTaskMessageToTab
      rw [h2 r2 le_rfl hr2]
      by_cases h8 : MESSAGE_RETRY_LIMIT ≤ r2
      · simp [h8]
      · have hrec : sendTaskMessageToTab env (r2 + 1) = .abandoned := by
          refine ih (r2 + 1) ?_ ?_ ?_
          · simp [MESSAGE_RETRY_LIMIT] at hn h8 ⊢
            omega
          · simp [MESSAGE_RETRY_LIMIT] at h8 ⊢
            omega
          · intro k hk1 hk2
            exact h2 k (by omega) hk2
        simp [h8, hrec]
  exact hgen (MESSAGE_RETRY_LIMIT + 1) r (by omega) hr h

theorem sendTask_delivered (env : Nat → Bool) (k : Nat)
    (hk : k ≤ MESSAGE_RETRY_LIMIT) (henv : env k = true)
    (hbefore : ∀ j, j < k → env j = false) :
    sendTaskMessageToTab env 0 = .delivered k := by
  have hgen : ∀ (n r : Nat), k - r ≤ n → r ≤ k →
      sendTaskMessageToTab env r = .delivered k := by
    intro n
    induction n with
    | zero =>
      intro r hn hr
      have hreq : r = k := by omega
      subst hreq
      unfold sendTaskMessageToTab
      simp [henv]
    | succ n ih =>
      intro r hn hr
      by_cases hrk : r = k
      · subst hrk
        unfold sendTaskMessageToTab
        simp [henv]
      · have hlt : r < k := by omega
        unfold sendTaskMessageToTab
        rw [hbefore r hlt]
        have h8 : ¬ MESSAGE_RETRY_LIMIT ≤ r := by
          simp [MESSAGE_RETRY_LIMIT] at hk ⊢
          omega
        simp only [Bool.false_eq_true, if_false, h8, if_neg h8]
        exact ih (r + 1) (by omega) (by omega)
  exact hgen (k + 1) 0 (by omega) (by omega)

/-- C9: delivery to a not-yet-listening destination page is retried up to
the fixed bound of 8 retries (`MESSAGE_RETRY_LIMIT`), with the fixed 600 ms
delay constant between attempts; once the bound is exceeded the delivery is
abandoned, and each destination's delivery depends only on its own
environment, independent of the other destinations dispatched in the same
invocation. -/
theorem C9_delivery_retry_bound :
    MESSAGE_RETRY_LIMIT = 8 ∧ MESSAGE_RETRY_DELAY_MS = 600 ∧
    (∀ env : Nat → Bool,
      (∀ k, k ≤ MESSAGE_RETRY_LIMIT → env k = false) →
      sendTaskMessageToTab env 0 = .abandoned) ∧
    (∀ (env : Nat → Bool) (k : Nat),
      k ≤ MESSAGE_RETRY_LIMIT → env k = true → (∀ j, j < k → env j = false) →
      sendTaskMessageToTab env 0 = .delivered k) ∧
    (∀ (tasks : List (String × (Nat → Bool))) (i : Nat),
      (dispatchToAllTabs tasks)[i]?
        = (tasks[i]?).map (fun t => (t.1, sendTaskMessageToTab t.2 0))) :=
  ⟨rfl, rfl,
   fun env h => sendTask_abandoned env 0 (by omega) (fun k _ hk2 => h k hk2),
   fun env k hk henv hb => sendTask_delivered env k hk henv hb,
   fun tasks i => by simp [dispatchToAllTabs]⟩

/-- Witness for C9: a never-listening destination is abandoned; a
destination that starts listening at the fourth attempt is delivered at
retry counter 3. -/
theorem C9_delivery_retry_bound_witness :
    sendTaskMessageToTab (fun _ => false) 0 = .abandoned ∧
    sendTaskMessageToTab (fun k => k == 3) 0 = .delivered 3 :=
  ⟨C9_delivery_retry_bound.2.2.1 (fun _ => false) (fun _ _ => rfl),
   C9_delivery_retry_bound.2.2.2.1 (fun k => k == 3) 3 (by decide) (by decide)
     (by decide)⟩

theorem isRecentlyExecuted_true (d : DedupeState) (now : Nat) (t : String)
    (h1 : d.lastExecutedText = t) (h2 : t ≠ "")
    (h3 : (now : Int) - (d.lastExecutedAt : Int) ≤ (DEDUPE_WINDOW_MS : Int)) :
    isRecentlyExecuted d now t = true := by
  unfold isRecentlyExecuted
  have hne2 : d.lastExecutedText ≠ "" := by
    rw [h1]
    exact h2
  rw [if_neg (by simp [h2, hne2])]
  rw [h1]
  simp [h3]

theorem isRecentlyExecuted_false_after (d : DedupeState) (now : Nat) (t : String)
    (h3 : (now : Int) - (d.lastExecutedAt : Int) > (DEDUPE_WINDOW_MS : Int)) :
    isRecentlyExecuted d now t = false := by
  unfold isRecentlyExecuted
  split
  · rfl
  · have hnot : ¬ ((now : Int) - (d.lastExecutedAt : Int) ≤ (DEDUPE_WINDOW_MS : Int)) := by
      omega
    simp [hnot]

theorem isRecentlyExecuted_initial (now : Nat) (t : String) :
    isRecentlyExecuted initialDedupeState now t = false := by
  unfold isRecentlyExecuted initialDedupeState
  simp

theorem runWithText_skip (running : Bool) (d : DedupeState) (now : Nat)
    (t : String) (prefer : Option String) (host : String) (comp : Bool)
    (page : Page) (hval : t ≠ "") (hdup : isRecentlyExecuted d now t = true) :
    runWithText running d now t prefer host comp page
      = (d, if running then RunOutcome.droppedBusy else RunOutcome.skippedDuplicate) := by
  unfold runWithText
  cases running
  · simp [hval, hdup]
  · simp

theorem runWithText_go (d : DedupeState) (now : Nat) (t : String)
    (prefer : Option String) (host : String) (page : Page) (adapter : SiteAdapter)
    (hval : t ≠ "") (hdup : isRecentlyExecuted d now t = false)
    (hadapter : resolveAdapter prefer host = some adapter) :
    runWithText false d now t prefer host true page
      = (markExecution t now, RunOutcome.filledAndSent (triggerSend adapter page)) := by
  unfold runWithText
  simp [hval, hdup, hadapter]

theorem runWithText_timeout (d : DedupeState) (now : Nat) (t : String)
    (prefer : Option String) (host : String) (page : Page) (adapter : SiteAdapter)
    (hval : t ≠ "") (hdup : isRecentlyExecuted d now t = false)
    (hadapter : resolveAdapter prefer host = some adapter) :
    runWithText false d now t prefer host false page
      = (markExecution t now, RunOutcome.composerTimedOut) := by
  unfold runWithText
  simp [hval, hdup, hadapter]

/-- C1: an invocation carrying a payload byte-identical to the most recently
executed one, within the 15000 ms dedupe window, performs no fill and no
send (it is skipped, or dropped if a send is already in flight); the same
payload after the window is executed again; and in a three-delivery trace —
two identical deliveries within the window, a third after it — exactly the
first and the third fill-and-send. -/
theorem C1_dedupe_window :
    (∀ (running : Bool) (d : DedupeState) (now : Nat) (t : String)
        (prefer : Option String) (host : String) (comp : Bool) (page : Page),
      d.lastExecutedText = t → t ≠ "" →
      (now : Int) - (d.lastExecutedAt : Int) ≤ (DEDUPE_WINDOW_MS : Int) →
      runWithText running d now t prefer host comp page
        = (d, if running then RunOutcome.droppedBusy else RunOutcome.skippedDuplicate)) ∧
    (∀ (d : DedupeState) (now : Nat) (t : String) (prefer : Option String)
        (host : String) (page : Page) (adapter : SiteAdapter),
      d.lastExecutedText = t → t ≠ "" →
      (now : Int) - (d.lastExecutedAt : Int) > (DEDUPE_WINDOW_MS : Int) →
      resolveAdapter prefer host = some adapter →
      runWithText false d now t prefer host true page
        = (markExecution t now, RunOutcome.filledAndSent (triggerSend adapter page))) ∧
    (∀ (t : String) (n1 n2 n3 : Nat) (prefer : Option String) (host : String)
        (page : Page) (adapter : SiteAdapter),
      t ≠ "" →
      resolveAdapter prefer host = some adapter →
      (n2 : Int) - (n1 : Int) ≤ (DEDUPE_WINDOW_MS : Int) →
      (n3 : Int) - (n1 : Int) > (DEDUPE_WINDOW_MS : Int) →
      runWithText false initialDedupeState n1 t prefer host true page
        = (markExecution t n1, RunOutcome.filledAndSent (triggerSend adapter page)) ∧
      runWithText false (markExecution t n1) n2 t prefer host true page
        = (markExecution t n1, RunOutcome.skippedDuplicate) ∧
      runWithText false (markExecution t n1) n3 t prefer host true page
        = (markExecution t n3, RunOutcome.filledAndSent (triggerSend adapter page))) := by
  refine ⟨?_, ?_, ?_⟩
  · intro running d now t prefer host comp page h1 h2 h3
    exact runWithText_skip running d now t prefer host comp page h2
      (isRecentlyExecuted_true d now t h1 h2 h3)
  · intro d now t prefer host page adapter h1 h2 h3 hadapter
    exact runWithText_go d now t prefer host page adapter h2
      (isRecentlyExecuted_false_after d now t h3) hadapter
  · intro t n1 n2 n3 prefer host page adapter hval hadapter hwin hafter
    refine ⟨?_, ?_, ?_⟩
    · exact runWithText_go initialDedupeState n1 t prefer host page adapter hval
        (isRecentlyExecuted_initial n1 t) hadapter
    · have hskip := runWithText_skip false (markExecution t n1) n2 t prefer host true
        page hval (isRecentlyExecuted_true (markExecution t n1) n2 t rfl hval hwin)
      simpa using hskip
    · exact runWithText_go (markExecution t n1) n3 t prefer host page adapter hval
        (isRecentlyExecuted_false_after (markExecution t n1) n3 t hafter) hadapter

/-- Witness for C1: a concrete duplicate 4000 ms after execution is skipped;
the same payload 19000 ms later runs again. -/
theorem C1_dedupe_window_witness :
    runWithText false { lastExecutedText := "hi", lastExecutedAt := 1000 } 5000 "hi"
        (some "chatgpt") "chatgpt.com" true usablePage
      = ({ lastExecutedText := "hi", lastExecutedAt := 1000 },
         RunOutcome.skippedDuplicate) ∧
    runWithText false { lastExecutedText := "hi", lastExecutedAt := 1000 } 20000 "hi"
        (some "chatgpt") "chatgpt.com" true usablePage
      = (markExecution "hi" 20000,
         RunOutcome.filledAndSent (triggerSend chatgptAdapter usablePage)) := by
  constructor
  · have h := C1_dedupe_window.1 false { lastExecutedText := "hi", lastExecutedAt := 1000 }
      5000 "hi" (some "chatgpt") "chatgpt.com" true usablePage rfl (by decide) (by decide)
    simpa using h
  · exact C1_dedupe_window.2.1 { lastExecutedText := "hi", lastExecutedAt := 1000 }
      20000 "hi" (some "chatgpt") "chatgpt.com" usablePage chatgptAdapter rfl
      (by decide) (by decide) rfl

theorem findOverSelectors_isHTML (selectors : List String) (elems : List Elem) :
    ∀ e, findOverSelectors selectors elems = some e → e.isHTMLElement = true := by
  induction selectors with
  | nil =>
    intro e h
    simp [findOverSelectors] at h
  | cons sel rest ih =>
    intro e h
    unfold findOverSelectors at h
    split at h
    · rename_i f hq
      split at h
      · rename_i hf
        cases h
        exact hf
      · exact ih e h
    · exact ih e h

theorem findSendButton_isHTML (adapter : SiteAdapter) (page : Page) (e : Elem)
    (h : findSendButton adapter page = some e) : e.isHTMLElement = true := by
  unfold findSendButton at h
  split at h
  · rename_i formElems hform
    split at h
    · rename_i f hf
      cases h
      exact findOverSelectors_isHTML adapter.sendButtonSelectors formElems _ hf
    · exact findOverSelectors_isHTML adapter.sendButtonSelectors page.documentElems e h
  · exact findOverSelectors_isHTML adapter.sendButtonSelectors page.documentElems e h

/-- C2 counterexample: on a page whose composer form holds a disabled send
button followed by a usable one, both matching the adapter's first send
selector, the code dispatches the Enter-key fallback even though a usable
matching control exists — the spec-side search (first *usable* matching
control) would click the second button.  This refutes the claim that the
injector clicks the first matching control that is non-disabled and
pointer-interactable and falls back only when no usable control exists. -/
theorem C2_counterexample_disabled_first_match :
    triggerSend chatgptAdapter cePage = SendAction.enterKeyFallback ∧
    triggerSendSpec chatgptAdapter cePage = SendAction.clicked ceB ∧
    findSendButton chatgptAdapter cePage = some ceA ∧
    usableControl ceA = false ∧
    usableControl ceB = true :=
  ⟨rfl, rfl, rfl, rfl, rfl⟩

/-- C2 (amended): the injector searches form-first then globally over the
adapter's ordered selector list and takes the FIRST matching element; it
clicks that element exactly when it is usable (not a disabled button,
pointer-interactable); otherwise — even when a later matching control is
usable — and also when nothing matches, it falls back to the synthetic Enter
keydown on the composer. -/
theorem C2_send_trigger_first_match :
    (∀ (a : SiteAdapter) (p : Page) (b : Elem),
      triggerSend a p = SendAction.clicked b →
      findSendButton a p = some b ∧ usableControl b = true) ∧
    (∀ (a : SiteAdapter) (p : Page) (b : Elem),
      findSendButton a p = some b → usableControl b = true →
      triggerSend a p = SendAction.clicked b) ∧
    (∀ (a : SiteAdapter) (p : Page) (b : Elem),
      findSendButton a p = some b → usableControl b = false →
      triggerSend a p = SendAction.enterKeyFallback) ∧
    (∀ (a : SiteAdapter) (p : Page),
      findSendButton a p = none → triggerSend a p = SendAction.enterKeyFallback) := by
  refine ⟨?_, ?_, ?_, ?_⟩
  · intro a p b h
    unfold triggerSend at h
    split at h
    · rename_i sb hsb
      split at h
      · rename_i hcond
        cases h
        refine ⟨hsb, ?_⟩
        have hhtml := findSendButton_isHTML a p _ hsb
        unfold usableControl
        rw [hhtml]
        simpa using hcond
      · cases h
    · cases h
  · intro a p b hfind husable
    unfold triggerSend
    rw [hfind]
    have hcond : ((!b.isButtonElement || !b.disabled) && !b.pointerEventsNone) = true := by
      unfold usableControl at husable
      simp only [Bool.and_eq_true] at husable ⊢
      exact ⟨husable.1.2, husable.2⟩
    simp [hcond]
  · intro a p b hfind husable
    unfold triggerSend
    rw [hfind]
    have hhtml := findSendButton_isHTML a p b hfind
    have hcond : ((!b.isButtonElement || !b.disabled) && !b.pointerEventsNone) = false := by
      unfold usableControl at husable
      rw [hhtml] at husable
      simpa using husable
    simp [hcond]
  · intro a p hfind
    unfold triggerSend
    rw [hfind]

/-- Witness for C2 (amended): on a page with a single usable send button the
code clicks it. -/
theorem C2_send_trigger_first_match_witness :
    triggerSend chatgptAdapter usablePage = SendAction.clicked ceB :=
  C2_send_trigger_first_match.2.1 chatgptAdapter usablePage ceB rfl rfl

/-- C10: every invocation of `runWithText` that passes the reentrancy,
validity, dedupe and adapter checks records the payload (with its
timestamp) before the composer wait; hence an attempt that then times out
waiting for the composer — performing no fill and no send — still
suppresses a byte-identical re-delivery within the dedupe window, whether
that re-delivery arrives through the runtime-message listener's duplicate
check or through a direct `runWithText` call while the first invocation
still holds the running guard. -/
theorem C10_mark_before_wait :
    (∀ (d : DedupeState) (now : Nat) (t : String) (prefer : Option String)
        (host : String) (page : Page) (adapter : SiteAdapter),
      t ≠ "" → isRecentlyExecuted d now t = false →
      resolveAdapter prefer host = some adapter →
      runWithText false d now t prefer host false page
        = (markExecution t now, RunOutcome.composerTimedOut)) ∧
    (∀ (t : String) (now now2 : Nat),
      t ≠ "" → (now2 : Int) - (now : Int) ≤ (DEDUPE_WINDOW_MS : Int) →
      isRecentlyExecuted (markExecution t now) now2 t = true) ∧
    (∀ (running : Bool) (t : String) (now now2 : Nat)
        (targetSite : Option String) (host : String) (comp : Bool) (page : Page),
      t ≠ "" → (now2 : Int) - (now : Int) ≤ (DEDUPE_WINDOW_MS : Int) →
      onRuntimeMessage running (markExecution t now) now2 MESSAGE_ACTION targetSite t
          host comp page
        = (markExecution t now, MessageReply.skippedDuplicate)) ∧
    (∀ (d : DedupeState) (now : Nat) (t : String) (prefer : Option String)
        (host : String) (comp : Bool) (page : Page),
      runWithText true d now t prefer host comp page = (d, RunOutcome.droppedBusy)) := by
  refine ⟨?_, ?_, ?_, ?_⟩
  · intro d now t prefer host page adapter hval hdup hadapter
    exact runWithText_timeout d now t prefer host page adapter hval hdup hadapter
  · intro t now now2 hval hwin
    exact isRecentlyExecuted_true (markExecution t now) now2 t rfl hval hwin
  · intro running t now now2 targetSite host comp page hval hwin
    have hdup := isRecentlyExecuted_true (markExecution t now) now2 t rfl hval hwin
    unfold onRuntimeMessage
    simp [hdup]
  · intro d now t prefer host comp page
    unfold runWithText
    simp

/-- Witness for C10: a concrete composer-timeout run records the payload,
and a duplicate runtime message 4000 ms later is answered as skipped. -/
theorem C10_mark_before_wait_witness :
    runWithText false initialDedupeState 1000 "hi" (some "chatgpt") "chatgpt.com"
        false usablePage
      = (markExecution "hi" 1000, RunOutcome.composerTimedOut) ∧
    onRuntimeMessage false (markExecution "hi" 1000) 5000 MESSAGE_ACTION none "hi"
        "chatgpt.com" true usablePage
      = (markExecution "hi" 1000, MessageReply.skippedDuplicate) :=
  ⟨C10_mark_before_wait.1 initialDedupeState 1000 "hi" (some "chatgpt") "chatgpt.com"
      usablePage chatgptAdapter (by decide) (by decide) rfl,
   C10_mark_before_wait.2.2.1 false "hi" 1000 5000 none "chatgpt.com" true usablePage
      (by decide) (by decide)⟩

end OmniStitch
